import Mathlib

/-!
Verification of the chunk-parallel mutation orchestrator of this repository
(the data-migration scripts `scripts/data-migrations/_lib.py`,
`scripts/data-migrations/001_cleanup_address_zero_aircraft.py` and
`scripts/update_fixes_parallel.py`).

The Python code is shallowly embedded: every `psql` round trip is a value of
type `Option String` (`none` models the `None` that `run_sql` /
`run_sql_command` return when the subprocess exits non-zero, `some out` the
trimmed stdout on success), an executor is a function `String → Option String`
from statement text to that result, and the imperative sequencing of
statements is made explicit as a statement log.  Wall-clock durations
(`time.time()` differences) are not modelled; no claim depends on them.
-/

namespace Soar

/-! ## Python string primitives

The scripts manipulate psql output with `str.strip`, `str.split`,
`in`, `str.join` and `int(...)`.  These are embedded below on `List Char`
with structural (fuel-based) recursion so that every concrete evaluation
reduces inside the kernel. -/

/-- The characters Python's default `str.strip()` removes
(space, tab, newline, carriage return, vertical tab, form feed;
other unicode whitespace never occurs in psql output). -/
def pySpace (c : Char) : Bool :=
  c = ' ' || c = '\t' || c = '\n' || c = '\r' || c = '\x0b' || c = '\x0c'

/-- Python `s.strip()`: drop leading and trailing whitespace. -/
def pyStrip (s : String) : String :=
  ⟨((s.data.dropWhile pySpace).reverse.dropWhile pySpace).reverse⟩

/-- Whether `sub` occurs at the head of `l` (helper for split / `in`). -/
def leadsWith : List Char → List Char → Bool
  | [], _ => true
  | _ :: _, [] => false
  | p :: ps, c :: cs => p = c && leadsWith ps cs

/-- Python `sub in s` (substring containment). -/
def containsSeq (sub : List Char) : List Char → Bool
  | [] => leadsWith sub []
  | c :: cs => leadsWith sub (c :: cs) || containsSeq sub cs

/-- Python `sub in s` on strings. -/
def pyContains (s sub : String) : Bool :=
  containsSeq sub.data s.data

/-- Fuel-based worker for `pySplit`; `sep` is nonempty at every use site. -/
def pySplitAux (sep : List Char) : Nat → List Char → List Char → List (List Char)
  | 0, acc, rest => [acc.reverse ++ rest]
  | _ + 1, acc, [] => [acc.reverse]
  | fuel + 1, acc, c :: cs =>
      if leadsWith sep (c :: cs) then
        acc.reverse :: pySplitAux sep fuel [] ((c :: cs).drop sep.length)
      else
        pySplitAux sep fuel (c :: acc) cs

/-- Python `s.split(sep)` for a nonempty separator (the scripts only split on
`"DELETE"`, `"UPDATE"`, `"|"`, `"\n"` and `"."`).  Python raises on an empty
separator; that case never occurs and is mapped to `[s]`. -/
def pySplit (s sep : String) : List String :=
  if sep.data.isEmpty then [s]
  else (pySplitAux sep.data (s.data.length + 1) [] s.data).map fun l => ⟨l⟩

/-- Digit run to number (helper for `pyIntOfString?`). -/
def digitsToNat (ds : List Char) : Nat :=
  ds.foldl (fun a c => a * 10 + (c.toNat - 48)) 0

/-- The digits branch of Python `int(...)` (helper for `pyIntOfString?`). -/
def natOfDigits? (ds : List Char) : Option Nat :=
  if ds.isEmpty then none
  else if ds.all Char.isDigit then some (digitsToNat ds) else none

/-- Python `int(s)` on an already-stripped string: an optional sign followed by
a nonempty digit run; `none` models the `ValueError` on anything else.
(Underscore digit grouping and non-ASCII digits, which Python also accepts,
never occur in psql row-count output and are not modelled.) -/
def pyIntOfString? (s : String) : Option Int :=
  match s.data with
  | '+' :: ds => (natOfDigits? ds).map Int.ofNat
  | '-' :: ds => (natOfDigits? ds).map fun n => -(n : Int)
  | ds => (natOfDigits? ds).map Int.ofNat

/-! ## Row-count parser -/

/-- Embeds `parse_delete_count` (`_lib.py` lines 37-44).  The argument is the
`run_sql_command` result: `none` is Python's `None` (psql failure), and the
Python truthiness test `if output and "DELETE" in output` fails on both `None`
and the empty string.  `output.split("DELETE")[1].strip()` is the element at
index 1; the `except (ValueError, IndexError)` arm is the `none` / `[]`
fall-through to 0. -/
def parse_delete_count (output : Option String) : Int :=
  match output with
  | none => 0
  | some o =>
      if o ≠ "" ∧ pyContains o "DELETE" = true then
        match (pySplit o "DELETE").drop 1 with
        | [] => 0
        | part :: _ =>
            match pyIntOfString? (pyStrip part) with
            | some n => n
            | none => 0
      else 0

/-! ## Segment catalog -/

/-- A chunk row as `get_chunks` builds it (`_lib.py` lines 59-68): qualified
name, compression flag, and the textual half-open time-range bounds. -/
structure Chunk where
  name : String
  compressed : Bool
  range_start : String
  range_end : String
deriving DecidableEq, Repr

/-- Embeds `get_chunks` (`_lib.py` lines 47-69, identically
`001_cleanup_address_zero_aircraft.py` lines 59-81).  The argument is the
`run_sql` result for the catalog query: `none` on psql failure, `some out`
(trimmed stdout) on success.  `if not output: return []` catches both `None`
and the empty string; each `|`-separated line with exactly 4 fields becomes a
chunk, other lines are dropped. -/
def get_chunks (output : Option String) : List Chunk :=
  match output with
  | none => []
  | some out =>
      if out = "" then []
      else
        (pySplit (pyStrip out) "\n").filterMap fun line =>
          match pySplit line "|" with
          | [p0, p1, p2, p3] =>
              some { name := pyStrip p0
                     compressed := pyStrip p1 = "true"
                     range_start := pyStrip p2
                     range_end := pyStrip p3 }
          | _ => none

/-! ## Segment mutator

`process_chunk` (`_lib.py` lines 72-97) issues three statements through psql:
decompress, the generated DELETE, recompress.  The executor is a function
from statement text to the psql result, and the issued statements are
threaded through an explicit log so that their presence and order are part of
the embedding. -/

/-- The statement log of a run: every statement handed to psql, oldest first. -/
structure ExecState where
  log : List String
deriving DecidableEq, Repr

/-- One psql round trip: append the statement to the log and consult the
executor (`run_sql` / `run_sql_command`; results are `none` on failure). -/
def runStmt (exec : String → Option String) (s : ExecState) (sql : String) :
    ExecState × Option String :=
  ({ log := s.log ++ [sql] }, exec sql)

/-- `f"SELECT decompress_chunk('{name}');"` (`_lib.py` line 87). -/
def decompressSql (name : String) : String :=
  "SELECT decompress_chunk('" ++ name ++ "');"

/-- `f"SELECT compress_chunk('{name}');"` (`_lib.py` line 94). -/
def compressSql (name : String) : String :=
  "SELECT compress_chunk('" ++ name ++ "');"

/-- Embeds `process_chunk` (`_lib.py` lines 72-97): decompress (result
ignored), run the generated DELETE, parse its row count, recompress (result
ignored); returns the chunk name and deleted count.  The `duration` component
of the Python return value (wall-clock time) is not modelled. -/
def process_chunk (exec : String → Option String) (s : ExecState)
    (chunk : Chunk) (delete_sql_fn : Chunk → String) :
    ExecState × String × Int :=
  let r1 := runStmt exec s (decompressSql chunk.name)
  let r2 := runStmt exec r1.1 (delete_sql_fn chunk)
  let deleted := parse_delete_count r2.2
  let r3 := runStmt exec r2.1 (compressSql chunk.name)
  (r3.1, chunk.name, deleted)

/-- The deleted count `process_chunk` reports for one chunk (each worker
thread runs `process_chunk` independently; the count a future yields does not
depend on the log). -/
def chunkDeleted (exec : String → Option String) (chunk : Chunk)
    (delete_sql_fn : Chunk → String) : Int :=
  (process_chunk exec ⟨[]⟩ chunk delete_sql_fn).2.2

/-- Embeds `process_chunks_parallel` (`_lib.py` lines 100-130): every chunk is
submitted to the pool, each future yields its chunk's `process_chunk` result,
and `total_deleted += deleted` accumulates them in completion order
(`as_completed`), which is nondeterministic and therefore an explicit
argument.  Returns `total_deleted`. -/
def process_chunks_parallel (exec : String → Option String)
    (delete_sql_fn : Chunk → String) (completionOrder : List Chunk) : Int :=
  completionOrder.foldl (fun total c => total + chunkDeleted exec c delete_sql_fn) 0

/-! ## The cleanup migration's `main`
(`001_cleanup_address_zero_aircraft.py` lines 114-205)

The run is modelled as the sequence of observable events: the module-global
`BAD_IDS_SQL` being assigned, chunk tasks being dispatched to the pool, and
SQL statements being issued — split into `query` (the `run_sql` SELECTs,
including the `decompress_chunk` / `compress_chunk` function calls, which
toggle compression state but mutate no rows) and `dml` (the
`run_sql_command` DELETEs, the row mutations). -/

/-- One observable event of a cleanup-migration run. -/
inductive MainEvent
  | assign (value : String)
  | query (sql : String)
  | dispatch (chunkName : String)
  | dml (sql : String)
deriving DecidableEq, Repr

/-- Line 123: `SELECT id FROM aircraft WHERE address = 0`. -/
def discoverySql : String := "SELECT id FROM aircraft WHERE address = 0"

/-- Lines 128-129: `bad_ids` is the stripped nonempty lines of the discovery
output, and `BAD_IDS_SQL = "'" + "','".join(bad_ids) + "'"`. -/
def mkBadIdsSql (output : String) : String :=
  let bad_ids := ((pySplit (pyStrip output) "\n").map pyStrip).filter fun l => l ≠ ""
  "'" ++ String.intercalate "','" bad_ids ++ "'"

/-- Lines 137-140 and 194-197 (the count and the verification query are the
same text): `SELECT count(*) FROM fixes WHERE aircraft_id IN ({BAD_IDS_SQL})`. -/
def countOrphansSql (badIds : String) : String :=
  "SELECT count(*) FROM fixes WHERE aircraft_id IN (" ++ badIds ++ ")"

/-- Lines 61-67: the chunk catalog query for hypertable `fixes`. -/
def chunksSql : String :=
  "\n        SELECT chunk_schema || '.' || chunk_name, is_compressed::text,\n               range_start::text, range_end::text\n        FROM timescaledb_information.chunks\n        WHERE hypertable_name = 'fixes'\n        ORDER BY range_start\n    "

/-- Lines 159-164: the fast-path DELETE.  Its only time condition is
`received_at >= '{uncompressed[0]["range_start"]}'` — a lower bound with no
upper bound. -/
def fastPathSql (badIds firstStart : String) : String :=
  "\n        SET timescaledb.max_tuples_decompressed_per_dml_transaction = 0;\n        DELETE FROM fixes\n        WHERE aircraft_id IN (" ++ badIds ++ ")\n          AND received_at >= '" ++ firstStart ++ "'::timestamptz\n    "

/-- Lines 93-98: the per-chunk DELETE of `process_compressed_chunk`, scoped to
`[range_start, range_end)`. -/
def chunkDeleteSql (badIds : String) (c : Chunk) : String :=
  "\n        DELETE FROM fixes\n        WHERE aircraft_id IN (" ++ badIds ++ ")\n          AND received_at >= '" ++ c.range_start ++ "'::timestamptz\n          AND received_at < '" ++ c.range_end ++ "'::timestamptz\n    "

/-- How a cleanup run ends (lines 125-126, 143-144, 200-205); `main` returns
normally in every case, so the process exit code is 0 on each of these. -/
inductive Verdict
  | earlyNoAircraft
  | earlyNoFixes
  | success
  | warning (remaining : Option String)
deriving DecidableEq, Repr

/-- A whole cleanup-migration run: its event trace, how it ended, and the
process exit code. -/
structure CleanupRun where
  events : List MainEvent
  verdict : Verdict
  exitCode : Nat
deriving DecidableEq, Repr

/-- Step 1's events (lines 155-166): the fast-path DELETE is issued only when
`uncompressed` is nonempty, scoped by `uncompressed[0]["range_start"]`. -/
def fastPathEvents (b : String) : List Chunk → List MainEvent
  | [] => []
  | u0 :: _ => [MainEvent.dml (fastPathSql b u0.range_start)]

/-- The events of one dispatched `process_compressed_chunk` task
(lines 84-111): dispatch, decompress, the scoped DELETE, recompress. -/
def chunkTaskEvents (b : String) (c : Chunk) : List MainEvent :=
  [MainEvent.dispatch c.name,
   MainEvent.query (decompressSql c.name),
   MainEvent.dml (chunkDeleteSql b c),
   MainEvent.query (compressSql c.name)]

/-- Embeds `main` (lines 114-205).  The four `Option String` arguments are the
psql results of, in order, the discovery query (line 123), the orphan count
(lines 137-140), the chunk catalog query (line 150 via `get_chunks`) and the
verification count (lines 194-197); `none` models a failed `run_sql`.  The
per-chunk event groups of step 2 are listed in submission order; their true
interleaving is nondeterministic, but no property proved below depends on the
order within step 2.  `sys.exit` is never called in `main`, so every path
exits 0 (the only non-zero exit of the script is the argv check at lines
23-26, before `main`). -/
def cleanupMain (discoveryOut totalFixes chunksOut remaining : Option String) :
    CleanupRun :=
  let ev0 := [MainEvent.query discoverySql]
  match discoveryOut with
  | none => ⟨ev0, .earlyNoAircraft, 0⟩
  | some out =>
    if out = "" then ⟨ev0, .earlyNoAircraft, 0⟩
    else
      let b := mkBadIdsSql out
      let ev1 := ev0 ++ [MainEvent.assign b, MainEvent.query (countOrphansSql b)]
      if totalFixes = some "0" then ⟨ev1, .earlyNoFixes, 0⟩
      else
        let chunks := get_chunks chunksOut
        let compressed := chunks.filter fun c => c.compressed
        let uncompressed := chunks.filter fun c => !c.compressed
        let evts := ev1 ++ [MainEvent.query chunksSql] ++
          fastPathEvents b uncompressed ++
          compressed.flatMap (chunkTaskEvents b) ++
          [MainEvent.query (countOrphansSql b)]
        let verdict := if remaining = some "0" then Verdict.success
                       else Verdict.warning remaining
        ⟨evts, verdict, 0⟩

/-- The DML (row-mutating) statements of a trace. -/
def dmlsOf (evts : List MainEvent) : List String :=
  evts.filterMap fun e => match e with | .dml s => some s | _ => none

/-- The values assigned to `BAD_IDS_SQL` during a trace. -/
def assignsOf (evts : List MainEvent) : List String :=
  evts.filterMap fun e => match e with | .assign v => some v | _ => none

/-- Whether an event dispatches a chunk task. -/
def isDispatch (e : MainEvent) : Bool :=
  match e with | .dispatch _ => true | _ => false

/-! ## The parallel update script's `main`
(`update_fixes_parallel.py` lines 112-231) -/

/-- Lines 139-146: the direct bulk UPDATE run when `get_compressed_chunks`
returned no chunks. -/
def directUpdateSql : String :=
  "SET timescaledb.max_tuples_decompressed_per_dml_transaction = 0;\n               UPDATE fixes fx\n               SET aircraft_id = m.icao_id\n               FROM aircraft_merge_mapping m\n               WHERE fx.aircraft_id = m.flarm_id"

/-- Lines 173-180: the bulk UPDATE of step 3 (same statement, the source's
indentation differs). -/
def bulkUpdateSql : String :=
  "SET timescaledb.max_tuples_decompressed_per_dml_transaction = 0;\n           UPDATE fixes fx\n           SET aircraft_id = m.icao_id\n           FROM aircraft_merge_mapping m\n           WHERE fx.aircraft_id = m.flarm_id"

/-- Embeds `get_compressed_chunks` (`update_fixes_parallel.py` lines 29-39):
the argument is `run_sql`'s result for the compressed-chunk catalog query.
On success the output's nonempty stripped lines are the chunk names.  On
failure `run_sql` returns `None` and line 39 calls `output.split('\n')` with
no guard: the uncaught `AttributeError` crashes the interpreter — modelled as
`none` (no chunk list is ever produced). -/
def get_compressed_chunks (output : Option String) : Option (List String) :=
  match output with
  | none => none
  | some out => some (((pySplit out "\n").map pyStrip).filter fun c => c ≠ "")

/-- A run of the parallel update script: the row-mutating statements it
issues and the process exit code. -/
structure UpdateRun where
  mutationStmts : List String
  exitCode : Nat
deriving DecidableEq, Repr

/-- Embeds `main` of `update_fixes_parallel.py` (lines 112-231).
`mappingExists` is the psql result of the prerequisite check (lines 119-123;
anything but `'t'` calls `sys.exit(1)`); `catalogOut` is `run_sql`'s result
for the chunk catalog query inside `get_compressed_chunks`.  When that query
fails, `get_compressed_chunks` crashes on `output.split('\n')` (uncaught
`AttributeError`) and Python exits 1 before any mutation.  With no compressed
chunk, lines 136-149 run the direct bulk UPDATE and return; otherwise step 2
decompresses (queries), step 3 issues the one bulk UPDATE, step 4
recompresses (queries), and `main` returns after the verification count —
exit code 0 in both of those branches, whatever `remaining` is. -/
def updateFixesRun (mappingExists catalogOut : Option String) : UpdateRun :=
  if mappingExists ≠ some "t" then ⟨[], 1⟩
  else
    match get_compressed_chunks catalogOut with
    | none => ⟨[], 1⟩
    | some chunks =>
        if chunks.isEmpty then ⟨[directUpdateSql], 0⟩
        else ⟨[bulkUpdateSql], 0⟩

/-! ## Semantic layer: the row-time predicates of the issued statements

`range_start` / `range_end` travel through the scripts as timestamp text and
reach the statements as `'{...}'::timestamptz` literals; SQL compares them as
points on the time line, embedded here as integers. -/

/-- A segment with its half-open time range read as time-line points. -/
structure Seg where
  name : String
  compressed : Bool
  range_start : Int
  range_end : Int
deriving DecidableEq, Repr

/-- The row-time predicate of the fast-path DELETE (`fastPathSql`, lines
159-164): the statement exists only when `uncompressed` is nonempty, and its
sole time condition is `received_at >= uncompressed[0].range_start` — a lower
bound with no upper bound and no per-segment union. -/
def fastPathTimePred (uncompressed : List Seg) (t : Int) : Prop :=
  match uncompressed.head? with
  | some u0 => u0.range_start ≤ t
  | none => False

/-- Modelled from the spec's words (the refinement target, not source code):
`t` lies inside some uncompressed segment's `[range_start, range_end)`. -/
def specUnionTimePred (uncompressed : List Seg) (t : Int) : Prop :=
  ∃ s ∈ uncompressed, s.range_start ≤ t ∧ t < s.range_end

/-! ## The worker pool

Both scripts build `ThreadPoolExecutor(max_workers=parallelism)` and submit
one task per chunk in a dict comprehension (`_lib.py` lines 115-119,
`001_...py` lines 175-179) before collecting any result: every task enters
the pool's internal work queue immediately (`submit` does not block), and the
pool runs at most `max_workers` of them at a time.  The scheduler is embedded
as a step relation. -/

/-- The pool's state: tasks submitted but not yet started (the executor's
internal work queue), tasks currently running in a worker thread, and
finished tasks. -/
structure PoolState where
  queued : List String
  running : List String
  done : List String
deriving DecidableEq, Repr

/-- The state right after the submitting dict comprehension: every chunk task
queued, none running — submission completed without blocking. -/
def poolInit (tasks : List String) : PoolState :=
  ⟨tasks, [], []⟩

/-- One scheduler step with `max_workers = N`: a queued task may start only
while fewer than `N` tasks run; a running task may finish. -/
inductive PoolStep (N : Nat) : PoolState → PoolState → Prop
  | start (s : PoolState) (t : String) (hq : t ∈ s.queued)
      (hN : s.running.length < N) :
      PoolStep N s ⟨s.queued.erase t, t :: s.running, s.done⟩
  | finish (s : PoolState) (t : String) (hr : t ∈ s.running) :
      PoolStep N s ⟨s.queued, s.running.erase t, t :: s.done⟩

/-- The states a run with `max_workers = N` over `tasks` can reach. -/
def PoolReachable (N : Nat) (tasks : List String) (s : PoolState) : Prop :=
  Relation.ReflTransGen (PoolStep N) (poolInit tasks) s

/-! ## Helpers for the id-list invariant -/

/-- The statement `s` embeds the id list `b` as its `IN (...)` filter. -/
def embedsIdList (s b : String) : Prop :=
  ∃ x y, s = x ++ ("IN (" ++ b ++ ")") ++ y

/-! ## Concrete fixtures for counterexamples and witnesses -/

/-- A compressed chunk covering `[2024-01-01, 2024-01-08)`. -/
def demoChunkA : Chunk :=
  ⟨"public.ch1", true, "2024-01-01 00:00:00+00", "2024-01-08 00:00:00+00"⟩

/-- A compressed chunk covering `[2024-01-08, 2024-01-15)`. -/
def demoChunkB : Chunk :=
  ⟨"public.ch2", true, "2024-01-08 00:00:00+00", "2024-01-15 00:00:00+00"⟩

/-- The statement generator of the cleanup migration with a one-id list. -/
def demoDeleteFn (c : Chunk) : String :=
  chunkDeleteSql "'id0'" c

/-- An executor on which chunk A's DELETE fails (psql returns `None`) while
chunk B's DELETE reports 5 rows. -/
def demoExecFailA (q : String) : Option String :=
  if q = demoDeleteFn demoChunkA then none
  else if q = demoDeleteFn demoChunkB then some "DELETE 5"
  else some ""

/-- An executor on which chunk A's DELETE succeeds with 0 rows and chunk B's
DELETE reports 5 rows. -/
def demoExecZeroA (q : String) : Option String :=
  if q = demoDeleteFn demoChunkA then some "DELETE 0"
  else if q = demoDeleteFn demoChunkB then some "DELETE 5"
  else some ""

/-- An executor on which every statement succeeds and chunk A's DELETE
reports 7 rows. -/
def demoExecOk (q : String) : Option String :=
  if q = demoDeleteFn demoChunkA then some "DELETE 7"
  else some ""

/-- Like `demoExecOk` on chunk A's DELETE, but every other statement —
decompress and recompress among them — fails. -/
def demoExecOnlyDelete (q : String) : Option String :=
  if q = demoDeleteFn demoChunkA then some "DELETE 7"
  else none

/-- An uncompressed segment covering the half-open range `[0, 10)`. -/
def demoUSeg : Seg :=
  ⟨"public.ch9", false, 0, 10⟩

/-- A catalog query output describing exactly `demoChunkA`. -/
def demoCatalogOut : Option String :=
  some "public.ch1|true|2024-01-01 00:00:00+00|2024-01-08 00:00:00+00"

end Soar

/-! # Theorems -/

set_option maxRecDepth 10000

namespace Soar

/-- Folding `total += deleted` over a list starting at `i` is `i` plus the
sum of the per-element counts. -/
theorem foldl_add_eq_sum (f : Chunk → Int) (l : List Chunk) (i : Int) :
    l.foldl (fun a c => a + f c) i = i + (l.map f).sum := by
  induction l generalizing i with
  | nil => simp
  | cons a l ih => simp [ih, add_assoc]

/-- The run total is the sum of the per-chunk deleted counts of the
completion order. -/
theorem process_chunks_parallel_eq_sum (exec : String → Option String)
    (delete_sql_fn : Chunk → String) (l : List Chunk) :
    process_chunks_parallel exec delete_sql_fn l =
      (l.map fun c => chunkDeleted exec c delete_sql_fn).sum := by
  simpa using foldl_add_eq_sum (fun c => chunkDeleted exec c delete_sql_fn) l 0

/-- C6: the row-count parser returns 42 on "DELETE 42" and 0 on "DELETE 0";
it returns 0 on absent output (psql failure, Python `None`) and on any text
whose candidate count does not parse as an integer; being a total Lean
function over all of `Option String`, it returns a value — never an
exception — on every input. -/
theorem c6_row_count_parser_total :
    parse_delete_count (some "DELETE 42") = 42 ∧
    parse_delete_count (some "DELETE 0") = 0 ∧
    parse_delete_count none = 0 ∧
    ∀ s : String,
      pyIntOfString? (pyStrip (((pySplit s "DELETE").drop 1).headD "")) = none →
      parse_delete_count (some s) = 0 := by
  refine ⟨by decide, by decide, rfl, fun s h => ?_⟩
  unfold parse_delete_count
  split
  next => rfl
  next o heq =>
    injection heq with heq
    subst heq
    split
    next =>
      split
      next => rfl
      next part rest heq2 =>
        rw [heq2] at h
        simp only [List.headD] at h
        rw [h]
    next => rfl

/-- C6 witness: a concrete text with no parseable count is mapped to 0. -/
theorem c6_witness :
    pyIntOfString? (pyStrip (((pySplit "no rows" "DELETE").drop 1).headD "")) = none ∧
    parse_delete_count (some "no rows") = 0 :=
  ⟨by decide, c6_row_count_parser_total.2.2.2 "no rows" (by decide)⟩

/-- C3: `process_chunk` always issues decompress, the generated DELETE and
recompress, in that order, whatever each round trip returns — so the DELETE
is issued even when decompress failed, and recompress is issued even when the
DELETE failed — and the returned name and row count depend only on the
DELETE's response: two executors that agree on the DELETE (here one whose
decompress and recompress succeed and one where both fail) yield the same
result. -/
theorem c3_mutate_order_and_decoupling (exec exec2 : String → Option String)
    (s : ExecState) (chunk : Chunk) (delete_sql_fn : Chunk → String)
    (hagree : exec2 (delete_sql_fn chunk) = exec (delete_sql_fn chunk)) :
    (process_chunk exec s chunk delete_sql_fn).1.log =
      s.log ++ [decompressSql chunk.name, delete_sql_fn chunk,
        compressSql chunk.name] ∧
    (process_chunk exec2 s chunk delete_sql_fn).2 =
      (process_chunk exec s chunk delete_sql_fn).2 := by
  constructor
  · simp [process_chunk, runStmt]
  · simp [process_chunk, runStmt, hagree]

/-- C3 witness: at a concrete chunk, an executor whose decompress and
recompress fail still logs all three statements in order and reports the same
(name, count) as one on which they succeed. -/
theorem c3_witness :
    (process_chunk demoExecOk ⟨[]⟩ demoChunkA demoDeleteFn).1.log =
      ExecState.log ⟨[]⟩ ++ [decompressSql demoChunkA.name,
        demoDeleteFn demoChunkA, compressSql demoChunkA.name] ∧
    (process_chunk demoExecOnlyDelete ⟨[]⟩ demoChunkA demoDeleteFn).2 =
      (process_chunk demoExecOk ⟨[]⟩ demoChunkA demoDeleteFn).2 :=
  c3_mutate_order_and_decoupling demoExecOk demoExecOnlyDelete ⟨[]⟩ demoChunkA
    demoDeleteFn (by decide)

/-- C7: for every executor (hence every assignment of per-chunk counts), the
run total equals the sum of the per-chunk deleted counts, and any two
completion orders — permutations of the submitted chunks — give the same
total: aggregation is order-independent. -/
theorem c7_sum_order_invariant (exec : String → Option String)
    (delete_sql_fn : Chunk → String) (chunks order1 order2 : List Chunk)
    (h1 : List.Perm order1 chunks) (h2 : List.Perm order2 chunks) :
    process_chunks_parallel exec delete_sql_fn order1 =
      (chunks.map fun c => chunkDeleted exec c delete_sql_fn).sum ∧
    process_chunks_parallel exec delete_sql_fn order1 =
      process_chunks_parallel exec delete_sql_fn order2 := by
  have e1 := process_chunks_parallel_eq_sum exec delete_sql_fn order1
  have e2 := process_chunks_parallel_eq_sum exec delete_sql_fn order2
  have s1 := (h1.map fun c => chunkDeleted exec c delete_sql_fn).sum_eq
  have s2 := (h2.map fun c => chunkDeleted exec c delete_sql_fn).sum_eq
  exact ⟨e1.trans s1, by rw [e1, e2, s1, s2]⟩

/-- C7 witness: the two completion orders of the two demo chunks agree. -/
theorem c7_witness :
    process_chunks_parallel demoExecZeroA demoDeleteFn [demoChunkB, demoChunkA] =
      ([demoChunkA, demoChunkB].map fun c =>
        chunkDeleted demoExecZeroA c demoDeleteFn).sum ∧
    process_chunks_parallel demoExecZeroA demoDeleteFn [demoChunkB, demoChunkA] =
      process_chunks_parallel demoExecZeroA demoDeleteFn [demoChunkA, demoChunkB] :=
  c7_sum_order_invariant demoExecZeroA demoDeleteFn [demoChunkA, demoChunkB]
    [demoChunkB, demoChunkA] [demoChunkA, demoChunkB]
    (List.Perm.swap demoChunkA demoChunkB []) (List.Perm.refl _)

/-- C4 counterexample: a run in which exactly one chunk's DELETE fails (chunk
A, executor returns `None`) produces the summary value 5 — the same value as
a fully successful run in which chunk A deletes 0 rows — because
`process_chunks_parallel` returns only the rows total: the run summary
carries no `segments_failed` count, so it cannot report
`segments_failed == 1`. -/
theorem c4_counterexample :
    process_chunks_parallel demoExecFailA demoDeleteFn [demoChunkA, demoChunkB] = 5 ∧
    process_chunks_parallel demoExecZeroA demoDeleteFn [demoChunkA, demoChunkB] = 5 := by
  constructor <;> decide

/-- C4 amended: one segment's DELETE failure is isolated — the failed chunk
contributes 0 (its row count parses from `None` to 0), every other chunk's
task still runs and contributes its own count, and the run is not aborted:
the total equals the total of the run over the remaining chunks.  But the
summary is only that total; no `segments_failed` count is reported. -/
theorem c4_amended_failure_isolated (exec : String → Option String)
    (delete_sql_fn : Chunk → String) (chunks : List Chunk) (x : Chunk)
    (hx : x ∈ chunks) (hfail : exec (delete_sql_fn x) = none) :
    chunkDeleted exec x delete_sql_fn = 0 ∧
    process_chunks_parallel exec delete_sql_fn chunks =
      process_chunks_parallel exec delete_sql_fn (chunks.erase x) := by
  have hzero : chunkDeleted exec x delete_sql_fn = 0 := by
    simp [chunkDeleted, process_chunk, runStmt, hfail, parse_delete_count]
  refine ⟨hzero, ?_⟩
  have hperm : List.Perm chunks (x :: chunks.erase x) := List.perm_cons_erase hx
  rw [process_chunks_parallel_eq_sum, process_chunks_parallel_eq_sum,
    (hperm.map fun c => chunkDeleted exec c delete_sql_fn).sum_eq]
  simp [hzero]

/-- C4 witness: the isolation theorem at the concrete failing run. -/
theorem c4_witness :
    chunkDeleted demoExecFailA demoChunkA demoDeleteFn = 0 ∧
    process_chunks_parallel demoExecFailA demoDeleteFn [demoChunkA, demoChunkB] =
      process_chunks_parallel demoExecFailA demoDeleteFn
        ([demoChunkA, demoChunkB].erase demoChunkA) :=
  c4_amended_failure_isolated demoExecFailA demoDeleteFn [demoChunkA, demoChunkB]
    demoChunkA (by decide) (by decide)

/-- C2 counterexample: when the SQL executor cannot reach the database
(`run_sql` returns `None`), `get_chunks` returns the empty list — the very
value it returns for a relation with no segments — instead of failing with a
`CatalogUnavailable` error: catalog failure and catalog emptiness are
indistinguishable, and no error value exists to abort the run on. -/
theorem c2_counterexample :
    get_chunks none = get_chunks (some "") ∧ get_chunks none = [] := by
  constructor <;> decide

/-- C2 amended: `get_chunks` returns the empty sequence both when the
relation has no segments and when the executor fails; the orchestrator does
not abort on executor failure but continues the run as if there were zero
segments, issuing no DML and proceeding through the final verification query
— and exits 0. -/
theorem c2_amended_failure_as_empty (out : Option String)
    (h : out = none ∨ out = some "") (d : String) (hd : d ≠ "")
    (tF rem : Option String) (htF : tF ≠ some "0") :
    get_chunks out = [] ∧
    (cleanupMain (some d) tF out rem).events =
      [MainEvent.query discoverySql, MainEvent.assign (mkBadIdsSql d),
       MainEvent.query (countOrphansSql (mkBadIdsSql d)),
       MainEvent.query chunksSql,
       MainEvent.query (countOrphansSql (mkBadIdsSql d))] ∧
    (cleanupMain (some d) tF out rem).exitCode = 0 := by
  have hout : get_chunks out = [] := by
    rcases h with h | h <;> subst h <;> decide
  refine ⟨hout, ?_, ?_⟩
  · simp [cleanupMain, hd, htF, hout, fastPathEvents]
  · simp [cleanupMain, hd, htF]

/-- C2 witness: the amended theorem at the concrete failed-executor run. -/
theorem c2_witness :
    get_chunks none = [] ∧
    (cleanupMain (some "x") none none (some "0")).events =
      [MainEvent.query discoverySql, MainEvent.assign (mkBadIdsSql "x"),
       MainEvent.query (countOrphansSql (mkBadIdsSql "x")),
       MainEvent.query chunksSql,
       MainEvent.query (countOrphansSql (mkBadIdsSql "x"))] ∧
    (cleanupMain (some "x") none none (some "0")).exitCode = 0 :=
  c2_amended_failure_as_empty none (Or.inl rfl) "x" (by decide) none (some "0")
    (by decide)

/-- C5 counterexample: a run whose verification count is 5 (non-zero, no
convergence) still has process exit code 0 — `main` only prints a warning and
returns — contradicting "when the verification count is non-zero the process
exits non-zero". -/
theorem c5_counterexample :
    (cleanupMain (some "id1") (some "7") (some "") (some "5")).verdict =
      Verdict.warning (some "5") ∧
    (cleanupMain (some "id1") (some "7") (some "") (some "5")).exitCode = 0 := by
  constructor <;> decide

/-- C5 amended: the exit code never depends on the verification count.  The
cleanup migration's `main` never calls `sys.exit`: it exits 0 on every path,
reporting non-convergence only as a warning verdict.  The update script exits
non-zero in exactly two cases, both before any mutation: its prerequisite
mapping table is missing (`sys.exit(1)`), or the chunk catalog query fails
and `get_compressed_chunks` crashes with an uncaught `AttributeError`; when
the catalog query yields a chunk list — empty or not — it exits 0 whatever
the verification count shows. -/
theorem c5_amended_exit_zero_regardless (d : String) (hd : d ≠ "")
    (tF cOut rem : Option String) (htF : tF ≠ some "0") (hrem : rem ≠ some "0")
    (mE cat : Option String) :
    (cleanupMain (some d) tF cOut rem).exitCode = 0 ∧
    (cleanupMain (some d) tF cOut rem).verdict = Verdict.warning rem ∧
    (updateFixesRun mE cat).exitCode =
      (if mE = some "t" ∧ (get_compressed_chunks cat).isSome then 0 else 1) := by
  refine ⟨by simp [cleanupMain, hd, htF], by simp [cleanupMain, hd, htF, hrem], ?_⟩
  by_cases hm : mE = some "t"
  · cases cat with
    | none => simp [updateFixesRun, hm, get_compressed_chunks]
    | some out =>
        have hg : get_compressed_chunks (some out) =
            some (((pySplit out "\n").map pyStrip).filter fun c => c ≠ "") := rfl
        have hl : (updateFixesRun (some "t") (some out)).exitCode = 0 := by
          unfold updateFixesRun
          rw [if_neg (by decide), hg]
          show (if (((pySplit out "\n").map pyStrip).filter fun c => c ≠ "").isEmpty = true
              then (⟨[directUpdateSql], 0⟩ : UpdateRun)
              else ⟨[bulkUpdateSql], 0⟩).exitCode = 0
          split <;> rfl
        rw [hm, hl, if_pos ⟨rfl, by rw [hg]; rfl⟩]
  · simp [updateFixesRun, hm]

/-- C5 witness: the amended theorem at a non-converged cleanup run and a
crashed catalog query of the update script. -/
theorem c5_witness :
    (cleanupMain (some "x") none none (some "3")).exitCode = 0 ∧
    (cleanupMain (some "x") none none (some "3")).verdict =
      Verdict.warning (some "3") ∧
    (updateFixesRun (some "t") none).exitCode =
      (if (some "t" : Option String) = some "t" ∧
          (get_compressed_chunks none).isSome then 0 else 1) :=
  c5_amended_exit_zero_regardless "x" (by decide) none none (some "3")
    (by decide) (by decide) (some "t") none

/-- C8 counterexample: in the parallel update script, a catalog query whose
output lists zero (compressed) segments does not lead to zero mutation
statements: the orchestrator issues the one direct bulk UPDATE
(lines 136-149). -/
theorem c8_counterexample :
    (updateFixesRun (some "t") (some "")).mutationStmts = [directUpdateSql] ∧
    (updateFixesRun (some "t") (some "")).mutationStmts ≠ [] := by
  constructor <;> decide

/-- C8 amended: in the cleanup migration a catalog with zero segments leads
to a run with no DML statement at all and exit code 0 (so 0 rows affected);
the parallel update script instead issues exactly its one direct bulk UPDATE
statement in that case (still exiting 0). -/
theorem c8_amended_zero_segments (d : String) (hd : d ≠ "")
    (tF rem cOut : Option String) (htF : tF ≠ some "0")
    (hchunks : get_chunks cOut = []) :
    dmlsOf (cleanupMain (some d) tF cOut rem).events = [] ∧
    (cleanupMain (some d) tF cOut rem).exitCode = 0 ∧
    (updateFixesRun (some "t") (some "")).mutationStmts = [directUpdateSql] := by
  refine ⟨?_, by simp [cleanupMain, hd, htF], by decide⟩
  simp [cleanupMain, hd, htF, hchunks, fastPathEvents, dmlsOf]

/-- C8 witness: the amended theorem at the concrete zero-segment run. -/
theorem c8_witness :
    dmlsOf (cleanupMain (some "x") none none none).events = [] ∧
    (cleanupMain (some "x") none none none).exitCode = 0 ∧
    (updateFixesRun (some "t") (some "")).mutationStmts = [directUpdateSql] :=
  c8_amended_zero_segments "x" (by decide) none none none (by decide) (by decide)

/-- C1 counterexample: one uncompressed segment covering `[0, 10)`: the
fast-path statement's time predicate admits the row time 10, which lies in no
uncompressed segment's half-open range — the predicate is not the union of
the uncompressed ranges. -/
theorem c1_counterexample :
    fastPathTimePred [demoUSeg] 10 ∧ ¬ specUnionTimePred [demoUSeg] 10 := by
  constructor
  · exact (by decide : demoUSeg.range_start ≤ (10 : Int))
  · rintro ⟨s, hs, _h1, h2⟩
    simp only [List.mem_singleton] at hs
    subst hs
    exact absurd h2 (by decide)

/-- C1 amended: when at least one uncompressed segment exists, the single
fast-path statement's time predicate is a lower bound only: it admits a row
time t iff t ≥ the first uncompressed segment's range_start.  Given the
catalog's ascending range_start order (the first segment's start is minimal),
this predicate is a superset of the union of the uncompressed segments'
half-open ranges, not that union itself. -/
theorem c1_amended_lower_bound_superset (uncompressed : List Seg) (u0 : Seg)
    (h0 : uncompressed.head? = some u0)
    (hsorted : ∀ s ∈ uncompressed, u0.range_start ≤ s.range_start) (t : Int) :
    (fastPathTimePred uncompressed t ↔ u0.range_start ≤ t) ∧
    (specUnionTimePred uncompressed t → fastPathTimePred uncompressed t) := by
  have hfp : fastPathTimePred uncompressed t ↔ u0.range_start ≤ t := by
    unfold fastPathTimePred
    rw [h0]
  refine ⟨hfp, fun hu => ?_⟩
  rcases hu with ⟨s, hs, h1, _⟩
  exact hfp.mpr (le_trans (hsorted s hs) h1)

/-- C1 witness: the amended theorem at the concrete one-segment catalog. -/
theorem c1_witness :
    (fastPathTimePred [demoUSeg] 3 ↔ demoUSeg.range_start ≤ 3) ∧
    (specUnionTimePred [demoUSeg] 3 → fastPathTimePred [demoUSeg] 3) :=
  c1_amended_lower_bound_superset [demoUSeg] demoUSeg rfl (by decide) 3

/-- C9 amended: with `max_workers = N`, every reachable pool state runs at
most N tasks concurrently — execution (each task's whole
decompress/DELETE/recompress pipeline) is bounded at N. -/
theorem c9_amended_bounded_workers (N : Nat) (tasks : List String)
    (s : PoolState) (h : PoolReachable N tasks s) : s.running.length ≤ N := by
  induction h with
  | refl => simp [poolInit]
  | tail _ step ih =>
      cases step with
      | start t hq hN => simpa using hN
      | finish t hr =>
          calc _ ≤ _ := (List.erase_sublist _ _).length_le
          _ ≤ N := ih

/-- C9 witness: the bound at the initial state of a one-task pool. -/
theorem c9_witness : (poolInit ["public.ch1"]).running.length ≤ 2 :=
  c9_amended_bounded_workers 2 ["public.ch1"] (poolInit ["public.ch1"])
    Relation.ReflTransGen.refl

/-- C9 counterexample: with parallelism 1 and three chunks, the pool reaches
a state in which the single worker is busy while the two remaining tasks are
already submitted and waiting in the pool's internal queue — the submitting
dict comprehension completed without blocking (submission is never blocked at
N busy workers; only execution is bounded). -/
theorem c9_counterexample :
    PoolReachable 1 ["public.ch1", "public.ch2", "public.ch3"]
      ⟨["public.ch2", "public.ch3"], ["public.ch1"], []⟩ ∧
    (PoolState.mk ["public.ch2", "public.ch3"] ["public.ch1"] []).queued.length = 2 ∧
    (PoolState.mk ["public.ch2", "public.ch3"] ["public.ch1"] []).running.length = 1 := by
  refine ⟨?_, rfl, rfl⟩
  have h2 := @PoolStep.start 1 (poolInit ["public.ch1", "public.ch2", "public.ch3"])
    "public.ch1" (by simp [poolInit]) (by simp [poolInit])
  have h : PoolStep 1 (poolInit ["public.ch1", "public.ch2", "public.ch3"])
      ⟨["public.ch2", "public.ch3"], ["public.ch1"], []⟩ := by
    simpa [poolInit, List.erase] using h2
  exact Relation.ReflTransGen.single h

/-! ### Trace bookkeeping lemmas for the id-list invariant -/

/-- `assignsOf` distributes over append. -/
theorem assignsOf_append (l1 l2 : List MainEvent) :
    assignsOf (l1 ++ l2) = assignsOf l1 ++ assignsOf l2 := by
  simp [assignsOf]

/-- `dmlsOf` distributes over append. -/
theorem dmlsOf_append (l1 l2 : List MainEvent) :
    dmlsOf (l1 ++ l2) = dmlsOf l1 ++ dmlsOf l2 := by
  simp [dmlsOf]

/-- `assignsOf` drops a query event. -/
theorem assignsOf_cons_query (q : String) (l : List MainEvent) :
    assignsOf (MainEvent.query q :: l) = assignsOf l := by
  simp [assignsOf]

/-- `assignsOf` keeps an assign event. -/
theorem assignsOf_cons_assign (v : String) (l : List MainEvent) :
    assignsOf (MainEvent.assign v :: l) = v :: assignsOf l := by
  simp [assignsOf]

/-- `assignsOf` of the empty trace. -/
theorem assignsOf_nil : assignsOf [] = [] :=
  rfl

/-- `dmlsOf` drops a query event. -/
theorem dmlsOf_cons_query (q : String) (l : List MainEvent) :
    dmlsOf (MainEvent.query q :: l) = dmlsOf l := by
  simp [dmlsOf]

/-- `dmlsOf` drops an assign event. -/
theorem dmlsOf_cons_assign (v : String) (l : List MainEvent) :
    dmlsOf (MainEvent.assign v :: l) = dmlsOf l := by
  simp [dmlsOf]

/-- `dmlsOf` of the empty trace. -/
theorem dmlsOf_nil : dmlsOf [] = [] :=
  rfl

/-- The fast path assigns nothing. -/
theorem assignsOf_fastPathEvents (b : String) (l : List Chunk) :
    assignsOf (fastPathEvents b l) = [] := by
  cases l <;> simp [fastPathEvents, assignsOf]

/-- The dispatched chunk tasks assign nothing. -/
theorem assignsOf_chunkTasks (b : String) (l : List Chunk) :
    assignsOf (l.flatMap (chunkTaskEvents b)) = [] := by
  induction l with
  | nil => rfl
  | cons c l ih =>
      rw [List.flatMap_cons, assignsOf_append, ih]
      simp [chunkTaskEvents, assignsOf]

/-- The chunk tasks' DML statements are exactly the per-chunk DELETEs. -/
theorem dmlsOf_chunkTasks (b : String) (l : List Chunk) :
    dmlsOf (l.flatMap (chunkTaskEvents b)) = l.map (chunkDeleteSql b) := by
  induction l with
  | nil => rfl
  | cons c l ih =>
      rw [List.flatMap_cons, dmlsOf_append, ih]
      simp [chunkTaskEvents, dmlsOf]

/-- A DML statement of the fast path is the fast-path DELETE for some start. -/
theorem mem_dmlsOf_fastPathEvents (b s : String) (l : List Chunk)
    (hs : s ∈ dmlsOf (fastPathEvents b l)) : ∃ st, s = fastPathSql b st := by
  cases l with
  | nil => simp [fastPathEvents, dmlsOf] at hs
  | cons u0 rest =>
      simp [fastPathEvents, dmlsOf] at hs
      exact ⟨u0.range_start, hs⟩

/-- A five-part statement whose second part is its id list embeds that list. -/
theorem embedsIdList_parts5 (A B b mid tail : String) :
    embedsIdList ((A ++ "IN (") ++ b ++ (")" ++ B) ++ mid ++ tail) b := by
  refine ⟨A, B ++ mid ++ tail, ?_⟩
  simp [String.append_assoc]

/-- A seven-part statement whose second part is its id list embeds that list. -/
theorem embedsIdList_parts7 (A B b s1 M s2 tail : String) :
    embedsIdList ((A ++ "IN (") ++ b ++ (")" ++ B) ++ s1 ++ M ++ s2 ++ tail) b := by
  refine ⟨A, B ++ s1 ++ M ++ s2 ++ tail, ?_⟩
  simp [String.append_assoc]

/-- The fast-path DELETE embeds its id list as the `IN (...)` filter. -/
theorem fastPathSql_embeds (b st : String) : embedsIdList (fastPathSql b st) b := by
  have h := embedsIdList_parts5
    "\n        SET timescaledb.max_tuples_decompressed_per_dml_transaction = 0;\n        DELETE FROM fixes\n        WHERE aircraft_id "
    "\n          AND received_at >= '" b st "'::timestamptz\n    "
  rw [show ("\n        SET timescaledb.max_tuples_decompressed_per_dml_transaction = 0;\n        DELETE FROM fixes\n        WHERE aircraft_id " ++ "IN (" : String) =
      "\n        SET timescaledb.max_tuples_decompressed_per_dml_transaction = 0;\n        DELETE FROM fixes\n        WHERE aircraft_id IN (" from rfl,
    show ((")" : String) ++ "\n          AND received_at >= '") =
      ")\n          AND received_at >= '" from rfl] at h
  exact h

/-- The per-chunk DELETE embeds its id list as the `IN (...)` filter. -/
theorem chunkDeleteSql_embeds (b : String) (c : Chunk) :
    embedsIdList (chunkDeleteSql b c) b := by
  have h := embedsIdList_parts7
    "\n        DELETE FROM fixes\n        WHERE aircraft_id "
    "\n          AND received_at >= '" b c.range_start
    "'::timestamptz\n          AND received_at < '" c.range_end
    "'::timestamptz\n    "
  rw [show ("\n        DELETE FROM fixes\n        WHERE aircraft_id " ++ "IN (" : String) =
      "\n        DELETE FROM fixes\n        WHERE aircraft_id IN (" from rfl,
    show ((")" : String) ++ "\n          AND received_at >= '") =
      ")\n          AND received_at >= '" from rfl] at h
  exact h

/-- C10: in a run that reaches chunk processing, the shared filter string is
assigned exactly once — at position 1 of the event trace, inside `main`,
before every task dispatch (the trace opens with the discovery query, the
assignment and the count query, and no later event assigns) — and every DML
statement the run issues, the fast-path DELETE and each per-chunk DELETE
alike, embeds that same id list. -/
theorem c10_single_assignment_same_ids (d : String) (hd : d ≠ "")
    (tF cOut rem : Option String) (htF : tF ≠ some "0") :
    assignsOf (cleanupMain (some d) tF cOut rem).events = [mkBadIdsSql d] ∧
    (cleanupMain (some d) tF cOut rem).events.take 3 =
      [MainEvent.query discoverySql, MainEvent.assign (mkBadIdsSql d),
       MainEvent.query (countOrphansSql (mkBadIdsSql d))] ∧
    ∀ s ∈ dmlsOf (cleanupMain (some d) tF cOut rem).events,
      embedsIdList s (mkBadIdsSql d) := by
  have hev : (cleanupMain (some d) tF cOut rem).events =
      [MainEvent.query discoverySql, MainEvent.assign (mkBadIdsSql d),
       MainEvent.query (countOrphansSql (mkBadIdsSql d))] ++
      [MainEvent.query chunksSql] ++
      fastPathEvents (mkBadIdsSql d)
        ((get_chunks cOut).filter fun c => !c.compressed) ++
      ((get_chunks cOut).filter fun c => c.compressed).flatMap
        (chunkTaskEvents (mkBadIdsSql d)) ++
      [MainEvent.query (countOrphansSql (mkBadIdsSql d))] := by
    simp [cleanupMain, hd, htF]
  refine ⟨?_, ?_, ?_⟩
  · rw [hev]
    simp [assignsOf_append, assignsOf_fastPathEvents, assignsOf_chunkTasks,
      assignsOf_cons_query, assignsOf_cons_assign, assignsOf_nil]
  · rw [hev]
    simp
  · intro s hs
    rw [hev] at hs
    simp only [dmlsOf_append, dmlsOf_chunkTasks, dmlsOf_cons_query,
      dmlsOf_cons_assign, dmlsOf_nil, List.append_nil, List.nil_append,
      List.mem_append] at hs
    rcases hs with hfp | hmap
    · obtain ⟨st, rfl⟩ := mem_dmlsOf_fastPathEvents _ s _ hfp
      exact fastPathSql_embeds _ st
    · rw [List.mem_map] at hmap
      obtain ⟨c, _, rfl⟩ := hmap
      exact chunkDeleteSql_embeds _ c

/-- C10 witness: the single-assignment theorem at a concrete run over
`demoChunkA`'s catalog. -/
theorem c10_witness :
    assignsOf (cleanupMain (some "x") none demoCatalogOut none).events =
      [mkBadIdsSql "x"] ∧
    (cleanupMain (some "x") none demoCatalogOut none).events.take 3 =
      [MainEvent.query discoverySql, MainEvent.assign (mkBadIdsSql "x"),
       MainEvent.query (countOrphansSql (mkBadIdsSql "x"))] ∧
    embedsIdList (chunkDeleteSql (mkBadIdsSql "x") demoChunkA) (mkBadIdsSql "x") :=
  have h := c10_single_assignment_same_ids "x" (by decide) none demoCatalogOut
    none (by decide)
  ⟨h.1, h.2.1, h.2.2 (chunkDeleteSql (mkBadIdsSql "x") demoChunkA) (by decide)⟩

end Soar
